import Mathlib

/-!
Shallow embedding of the embeddings-generator service
(src/app/embedding_service.py, src/app/main.py, src/app/models.py,
src/app/config.py) and verification of the frozen claims.

The external model library (sentence_transformers) is abstracted as a
`ModelBackend` record of functions; all repository code is translated
directly from the Python source.  Wall-clock time is modelled by giving
every external operation (model fetch, batch encode) an abstract duration
supplied by the backend; the elapsed time reported by
`generate_embeddings` is, as in the source, the time accumulated inside
the `try` block (after `load_model` and batch-size resolution).
Mutation of the `EmbeddingService` singleton is modelled by explicit
state passing, and calls into the external library are recorded in an
event trace so that "no fetch happened" / "no inference happened" are
provable statements.
-/

namespace EmbGen

/-- An embedding vector (numeric vector; exact scalar type irrelevant to the claims). -/
abbrev Vec := List Int

/-- Opaque handle to a loaded sentence-transformer model object. -/
structure Model where
  handle : Nat
deriving DecidableEq, Repr

/-- Observable calls into the external model library. -/
inductive Event where
  /-- `SentenceTransformer(model_name, ...)`: fetch / initialisation of a model. -/
  | fetch (name : String)
  /-- `self.model.encode(batch_texts, ...)`: one batched inference call. -/
  | encode (texts : List String)
deriving DecidableEq, Repr

/-- The settings fields used by the service (src/app/config.py). -/
structure Settings where
  default_model_name : String
  max_batch_size : Int
  max_sequence_length : Nat
  debug : Bool
deriving Repr

/-- Abstraction of the external sentence-transformers library: what loading a
model returns, what `encode` returns, whether the model object has a
`get_sentence_embedding_dimension` attribute (and what calling it does),
whether it has a `max_seq_length` attribute, and the duration of each
external operation. -/
structure ModelBackend where
  loadResult : String → Except String Model
  encode : Model → List String → Bool → Except String (List Vec)
  getDimension : Model → Option (Except String Nat)
  maxSeqLength : Model → Option Nat
  fetchTime : String → Nat
  encodeTime : List String → Nat

/-- The mutable fields of the `EmbeddingService` singleton. -/
structure ServiceState where
  model : Option Model
  model_name : Option String
deriving DecidableEq, Repr

/-- Python `x or d` for an optional string argument: `None` and `""` are falsy. -/
def pyOrStr (x : Option String) (d : String) : String :=
  match x with
  | none => d
  | some s => if s = "" then d else s

/-- Python `x or d` for an optional int argument: `None` and `0` are falsy. -/
def pyOrInt (x : Option Int) (d : Int) : Int :=
  match x with
  | none => d
  | some b => if b = 0 then d else b

/-- Duration of one external call, per the cost model of the backend. -/
def eventTime (be : ModelBackend) : Event → Nat
  | Event.fetch n => be.fetchTime n
  | Event.encode ts => be.encodeTime ts

/-- Total duration of a trace of external calls. -/
def eventsTime (be : ModelBackend) (evs : List Event) : Nat :=
  (evs.map (eventTime be)).sum

/-- `EmbeddingService.load_model` (src/app/embedding_service.py:31-62).
Returns the outcome (`ok` or the raised `RuntimeError` message), the new
service state, and the trace of external calls made. -/
def load_model (be : ModelBackend) (cfg : Settings) (s : ServiceState)
    (mname : Option String) : Except String Unit × ServiceState × List Event :=
  let name := pyOrStr mname cfg.default_model_name
  if s.model_name = some name ∧ s.model.isSome then
    (Except.ok (), s, [])
  else
    match be.loadResult name with
    | Except.ok m =>
        (Except.ok (), { model := some m, model_name := some name }, [Event.fetch name])
    | Except.error e =>
        (Except.error ("Failed to load model " ++ name ++ ": " ++ e), s, [Event.fetch name])

/-- Ceiling division on naturals: `ceil (n / b)`. -/
def ceilDiv (n b : Nat) : Nat := (n + b - 1) / b

/-- Python `range(0, stop, step)` for `stop ≥ 0`: `none` models the
`ValueError` raised when `step = 0`; a negative step yields no iterations
(since the values would have to be `> stop ≥ 0` starting from 0). -/
def pyRange0 (stop : Nat) (step : Int) : Option (List Nat) :=
  if step = 0 then none
  else if step < 0 then some []
  else some ((List.range (ceilDiv stop step.toNat)).map (fun k => k * step.toNat))

/-- Python slice `texts[i : i + b]` for `i, b ≥ 0`. -/
def sliceChunk (texts : List String) (i b : Nat) : List String :=
  (texts.drop i).take b

/-- The body of the batching loop: encode each chunk in order, concatenating
results; the first failure aborts the loop (the exception propagates). -/
def encodeChunks (be : ModelBackend) (m : Model) (normalize : Bool) :
    List (List String) → Except String (List Vec) × List Event
  | [] => (Except.ok [], [])
  | c :: cs =>
    match be.encode m c normalize with
    | Except.error e => (Except.error e, [Event.encode c])
    | Except.ok vs =>
      match encodeChunks be m normalize cs with
      | (Except.error e, evs) => (Except.error e, Event.encode c :: evs)
      | (Except.ok rest, evs) => (Except.ok (vs ++ rest), Event.encode c :: evs)

/-- Effective batch size: `batch_size or self.settings.max_batch_size`
(src/app/embedding_service.py:82). -/
def effBatchSize (cfg : Settings) (batch_size : Option Int) : Int :=
  pyOrInt batch_size cfg.max_batch_size

/-- The batched loop `for i in range(0, len(texts), batch_size)`
(src/app/embedding_service.py:90-102): slices each chunk and encodes it. -/
def batchLoop (be : ModelBackend) (m : Model) (texts : List String) (bs : Int)
    (normalize : Bool) : Except String (List Vec) × List Event :=
  match pyRange0 texts.length bs with
  | none => (Except.error "range() arg 3 must not be zero", [])
  | some idxs => encodeChunks be m normalize (idxs.map (fun i => sliceChunk texts i bs.toNat))

/-- `EmbeddingService.generate_embeddings` (src/app/embedding_service.py:64-111).
On success returns the embeddings together with the reported
`processing_time`; the timer is started after `load_model` returns and
batch size is resolved, so the reported time is the duration of the
events inside the `try` block only. -/
def generate_embeddings (be : ModelBackend) (cfg : Settings) (s : ServiceState)
    (texts : List String) (mname : Option String) (normalize : Bool)
    (batch_size : Option Int) :
    Except String (List Vec × Nat) × ServiceState × List Event :=
  if texts = [] then (Except.error "Texts list cannot be empty", s, [])
  else
    match load_model be cfg s mname with
    | (Except.error e, s', evL) => (Except.error e, s', evL)
    | (Except.ok _, s', evL) =>
      match s'.model with
      | none => (Except.error "Model is not loaded", s', evL)
      | some m =>
        let bs := effBatchSize cfg batch_size
        match batchLoop be m texts bs normalize with
        | (Except.error e, evE) =>
            (Except.error ("Failed to generate embeddings: " ++ e), s', evL ++ evE)
        | (Except.ok vecs, evE) =>
            (Except.ok (vecs, eventsTime be evE), s', evL ++ evE)

/-- The record returned by `EmbeddingService.get_model_info`. -/
structure ModelInfoRec where
  model_name : Option String
  model_type : Option String
  max_sequence_length : Option Nat
  embedding_dimensions : Option Nat
  is_loaded : Bool
deriving DecidableEq, Repr

/-- Dimensionality resolution inside `get_model_info`
(src/app/embedding_service.py:126-131): the model-reported property if the
attribute exists, otherwise a throwaway probe inference on `["test"]`. -/
def resolveDims (be : ModelBackend) (m : Model) : Except String Nat × List Event :=
  match be.getDimension m with
  | some r => (r, [])
  | none =>
    match be.encode m ["test"] false with
    | Except.error e => (Except.error e, [Event.encode ["test"]])
    | Except.ok [] => (Except.error "list index out of range", [Event.encode ["test"]])
    | Except.ok (v :: _) => (Except.ok v.length, [Event.encode ["test"]])

/-- The all-empty record returned when no model is loaded. -/
def emptyInfoRec : ModelInfoRec :=
  { model_name := none, model_type := none, max_sequence_length := none,
    embedding_dimensions := none, is_loaded := false }

/-- `EmbeddingService.get_model_info` (src/app/embedding_service.py:113-152).
Total: every failure inside the `try` block degrades to the fallback
record instead of propagating. -/
def get_model_info (be : ModelBackend) (cfg : Settings) (s : ServiceState) :
    ModelInfoRec × List Event :=
  match s.model with
  | none => (emptyInfoRec, [])
  | some m =>
    match resolveDims be m with
    | (Except.ok d, evs) =>
        ({ model_name := s.model_name, model_type := some "sentence-transformer",
           max_sequence_length := some ((be.maxSeqLength m).getD cfg.max_sequence_length),
           embedding_dimensions := some d, is_loaded := true }, evs)
    | (Except.error _, evs) =>
        ({ model_name := s.model_name, model_type := some "sentence-transformer",
           max_sequence_length := some cfg.max_sequence_length,
           embedding_dimensions := none, is_loaded := false }, evs)

/-- `EmbeddingService.is_model_loaded` (src/app/embedding_service.py:154-156). -/
def is_model_loaded (s : ServiceState) : Bool :=
  s.model.isSome

/-- `EmbeddingService.unload_model` (src/app/embedding_service.py:158-172):
clears the resident model when one is present, otherwise does nothing. -/
def unload_model (s : ServiceState) : ServiceState :=
  if s.model.isSome then { model := none, model_name := none } else s

/-- The fields of the `/embeddings` request body (src/app/models.py:8-28). -/
structure EmbeddingRequest where
  texts : List String
  model_name : Option String := none
  normalize : Bool := true
  batch_size : Option Int := none
deriving DecidableEq, Repr

/-- The fields of a successful `/embeddings` response (src/app/models.py:31-53). -/
structure EmbeddingResponse where
  embeddings : List Vec
  model_name : Option String
  dimensions : Option Nat
  processing_time : Nat
  total_texts : Nat
deriving DecidableEq, Repr

/-- `POST /embeddings` (src/app/main.py:127-162), including the framework
validation of the request shape (`min_items=1`, `max_items=100` on
`texts`, rejected with 422 before the handler runs).  Inside the handler,
the character-length loop raises `HTTPException(400)` before any call to
the service; a service failure is mapped to 500.  Returns
(status, optional body), the new service state and the trace of external
calls. -/
def route_embeddings (be : ModelBackend) (cfg : Settings) (s : ServiceState)
    (req : EmbeddingRequest) :
    (Nat × Option EmbeddingResponse) × ServiceState × List Event :=
  if req.texts.length < 1 ∨ req.texts.length > 100 then
    ((422, none), s, [])
  else if req.texts.any (fun t => t.length > cfg.max_sequence_length) then
    ((400, none), s, [])
  else
    match generate_embeddings be cfg s req.texts req.model_name req.normalize req.batch_size with
    | (Except.error _, s', ev) => ((500, none), s', ev)
    | (Except.ok (vecs, t), s', ev) =>
      let infoEv := get_model_info be cfg s'
      ((200, some { embeddings := vecs, model_name := infoEv.1.model_name,
                    dimensions := infoEv.1.embedding_dimensions, processing_time := t,
                    total_texts := req.texts.length }), s', ev ++ infoEv.2)

/-- `GET /model/info` (src/app/main.py:106-124): 503 when the record says no
model is loaded, otherwise 200 with the record. -/
def route_model_info (be : ModelBackend) (cfg : Settings) (s : ServiceState) :
    (Nat × Option ModelInfoRec) × List Event :=
  let infoEv := get_model_info be cfg s
  if infoEv.1.is_loaded = false then ((503, none), infoEv.2)
  else ((200, some infoEv.1), infoEv.2)

/-- `POST /model/load` (src/app/main.py:165-173): 200 on success, 500 with the
error text on failure. -/
def route_model_load (be : ModelBackend) (cfg : Settings) (s : ServiceState)
    (name : String) : (Nat × Option String) × ServiceState × List Event :=
  match load_model be cfg s (some name) with
  | (Except.ok _, s', ev) =>
      ((200, some ("Model " ++ name ++ " loaded successfully")), s', ev)
  | (Except.error e, s', ev) => ((500, some e), s', ev)

/-- `POST /model/unload` (src/app/main.py:176-184). -/
def route_model_unload (s : ServiceState) : (Nat × Option String) × ServiceState :=
  ((200, some "Model unloaded successfully"), unload_model s)

/-! ### Chunking lemmas -/

/-- Recursive presentation of the chunks produced by the batching loop:
`m` chunks of `b` elements each, taken from the front of `l`. -/
def chunksAux (b : Nat) : Nat → List String → List (List String)
  | 0, _ => []
  | m + 1, l => l.take b :: chunksAux b m (l.drop b)

theorem chunksAux_length (b m : Nat) (l : List String) :
    (chunksAux b m l).length = m := by
  induction m generalizing l with
  | zero => rfl
  | succ m ih => simp [chunksAux, ih]

theorem chunksAux_chunk_le (b m : Nat) (l : List String) :
    ∀ c ∈ chunksAux b m l, c.length ≤ b := by
  induction m generalizing l with
  | zero => intro c hc; simp [chunksAux] at hc
  | succ m ih =>
    intro c hc
    simp only [chunksAux, List.mem_cons] at hc
    rcases hc with h | h
    · subst h
      rw [List.length_take]
      exact Nat.min_le_left _ _
    · exact ih _ c h

theorem chunksAux_flatten (b : Nat) (m : Nat) (l : List String)
    (h : l.length ≤ m * b) : (chunksAux b m l).flatten = l := by
  induction m generalizing l with
  | zero =>
    have : l = [] := List.eq_nil_of_length_eq_zero (Nat.le_zero.mp (by simpa using h))
    simp [chunksAux, this]
  | succ m ih =>
    have hd : (l.drop b).length ≤ m * b := by
      rw [List.length_drop]
      have hs : (m + 1) * b = m * b + b := Nat.succ_mul m b
      exact Nat.sub_le_iff_le_add.mpr (by rw [hs] at h; exact h)
    simp [chunksAux, ih (l.drop b) hd]

theorem le_ceilDiv_mul (n b : Nat) (hb : 0 < b) : n ≤ ceilDiv n b * b := by
  cases n with
  | zero => exact Nat.zero_le _
  | succ k =>
    have hq : ceilDiv (k + 1) b = k / b + 1 := by
      unfold ceilDiv
      have he : k + 1 + b - 1 = k + b := by omega
      rw [he, Nat.add_div_right _ hb]
    rw [hq, Nat.add_mul, Nat.one_mul, Nat.mul_comm]
    have hm := Nat.mod_add_div k b
    have hl : k % b < b := Nat.mod_lt _ hb
    linarith

theorem range_map_slice (b : Nat) (m : Nat) (l : List String) :
    (List.range m).map (fun k => sliceChunk l (k * b) b) = chunksAux b m l := by
  induction m generalizing l with
  | zero => rfl
  | succ m ih =>
    rw [List.range_succ_eq_map, List.map_cons, List.map_map]
    have h0 : sliceChunk l (0 * b) b = l.take b := by
      simp [sliceChunk]
    rw [h0]
    have hrest : ((fun k => sliceChunk l (k * b) b) ∘ Nat.succ)
        = fun k => sliceChunk (l.drop b) (k * b) b := by
      funext k
      simp only [Function.comp, sliceChunk, List.drop_drop, Nat.succ_mul, Nat.add_comm]
    rw [hrest, ih (l.drop b)]
    rfl

theorem encodeChunks_pointwise (be : ModelBackend) (m : Model) (normalize : Bool)
    (f : String → Vec)
    (hEnc : ∀ ts : List String, be.encode m ts normalize = Except.ok (ts.map f)) :
    ∀ cs : List (List String),
      encodeChunks be m normalize cs = (Except.ok (cs.flatten.map f), cs.map Event.encode) := by
  intro cs
  induction cs with
  | nil => rfl
  | cons c cs ih =>
    simp only [encodeChunks, hEnc c, ih, List.flatten_cons, List.map_cons, List.map_append]

/-- Every event emitted by `encodeChunks` is an inference call. -/
theorem encodeChunks_events_encode (be : ModelBackend) (m : Model) (normalize : Bool)
    (cs : List (List String)) :
    ∀ ev ∈ (encodeChunks be m normalize cs).2, ∃ ts, ev = Event.encode ts := by
  induction cs with
  | nil => intro ev h; simp [encodeChunks] at h
  | cons c cs ih =>
    intro ev h
    simp only [encodeChunks] at h
    cases hc : be.encode m c normalize with
    | error e =>
      rw [hc] at h
      simp at h
      exact ⟨c, h⟩
    | ok vs =>
      rw [hc] at h
      cases hrec : encodeChunks be m normalize cs with
      | mk r evs =>
        rw [hrec] at h
        have hmem : ev = Event.encode c ∨ ev ∈ evs := by
          cases r with
          | error e => simpa using h
          | ok rest => simpa using h
        rcases hmem with h | h
        · exact ⟨c, h⟩
        · exact ih ev (by rw [hrec]; exact h)

/-- Every event emitted by `load_model` is a fetch. -/
theorem load_model_events_fetch (be : ModelBackend) (cfg : Settings)
    (s : ServiceState) (mname : Option String) :
    ∀ ev ∈ (load_model be cfg s mname).2.2, ∃ nm, ev = Event.fetch nm := by
  intro ev h
  unfold load_model at h
  by_cases hc : s.model_name = some (pyOrStr mname cfg.default_model_name) ∧ s.model.isSome
  · rw [if_pos hc] at h; simp at h
  · rw [if_neg hc] at h
    cases hl : be.loadResult (pyOrStr mname cfg.default_model_name) with
    | ok m => rw [hl] at h; simp at h; exact ⟨_, h⟩
    | error e => rw [hl] at h; simp at h; exact ⟨_, h⟩

/-- The chunks actually processed by the batching loop for a given
configuration, input list and caller-supplied batch size. -/
def runChunks (cfg : Settings) (texts : List String) (batch_size : Option Int) :
    List (List String) :=
  chunksAux (effBatchSize cfg batch_size).toNat
    (ceilDiv texts.length (effBatchSize cfg batch_size).toNat) texts

/-- C1: for every call to `generate_embeddings` with a non-empty list of `n`
texts and a positive effective batch size `b` (the caller-supplied value, or
the configured `max_batch_size` when absent), the texts are partitioned into
`ceil(n/b)` contiguous chunks each of size at most `b` in original order
(their concatenation is the input list), the per-chunk results are
concatenated in input order, and the returned embeddings list has exactly one
vector per input text (here: inference maps each text to `f` of it, and the
result is exactly `texts.map f`, of length `n`). -/
theorem generate_embeddings_batches_correct
    (be : ModelBackend) (cfg : Settings) (s : ServiceState)
    (texts : List String) (mname : Option String) (normalize : Bool)
    (batch_size : Option Int) (s' : ServiceState) (evL : List Event)
    (m : Model) (f : String → Vec)
    (hne : texts ≠ [])
    (hb : 0 < effBatchSize cfg batch_size)
    (hload : load_model be cfg s mname = (Except.ok (), s', evL))
    (hm : s'.model = some m)
    (hEnc : ∀ ts : List String, be.encode m ts normalize = Except.ok (ts.map f)) :
    generate_embeddings be cfg s texts mname normalize batch_size
      = (Except.ok (texts.map f,
           eventsTime be ((runChunks cfg texts batch_size).map Event.encode)), s',
         evL ++ (runChunks cfg texts batch_size).map Event.encode)
    ∧ (runChunks cfg texts batch_size).length
        = ceilDiv texts.length (effBatchSize cfg batch_size).toNat
    ∧ (∀ c ∈ runChunks cfg texts batch_size,
        c.length ≤ (effBatchSize cfg batch_size).toNat)
    ∧ (runChunks cfg texts batch_size).flatten = texts
    ∧ (texts.map f).length = texts.length := by
  have hbN : 0 < (effBatchSize cfg batch_size).toNat := by omega
  have hrange : pyRange0 texts.length (effBatchSize cfg batch_size)
      = some ((List.range (ceilDiv texts.length (effBatchSize cfg batch_size).toNat)).map
          (fun k => k * (effBatchSize cfg batch_size).toNat)) := by
    unfold pyRange0
    rw [if_neg (by omega), if_neg (by omega)]
  have hchunks : ((List.range
        (ceilDiv texts.length (effBatchSize cfg batch_size).toNat)).map
          (fun k => k * (effBatchSize cfg batch_size).toNat)).map
          (fun i => sliceChunk texts i (effBatchSize cfg batch_size).toNat)
      = runChunks cfg texts batch_size := by
    rw [List.map_map]
    exact range_map_slice _ _ texts
  have hflat : (runChunks cfg texts batch_size).flatten = texts :=
    chunksAux_flatten _ _ texts (le_ceilDiv_mul texts.length _ hbN)
  have hbatch : batchLoop be m texts (effBatchSize cfg batch_size) normalize
      = (Except.ok (texts.map f), (runChunks cfg texts batch_size).map Event.encode) := by
    unfold batchLoop
    rw [hrange]
    show encodeChunks be m normalize _ = _
    rw [hchunks, encodeChunks_pointwise be m normalize f hEnc, hflat]
  refine ⟨?_, chunksAux_length _ _ _, chunksAux_chunk_le _ _ _, hflat, List.length_map _ _⟩
  unfold generate_embeddings
  rw [if_neg hne, hload]
  dsimp only
  rw [hm]
  dsimp only
  rw [hbatch]

/-- A pointwise inference function used by the concrete witnesses. -/
def fDemo : String → Vec := fun t => [Int.ofNat t.length]

/-- A deterministic backend used by the concrete witnesses: every load
succeeds, inference maps each text to `fDemo` of it, fetching takes 5 time
units and each batched inference call takes 1. -/
def beDemo : ModelBackend :=
  { loadResult := fun _ => Except.ok ⟨1⟩
    encode := fun _ ts _ => Except.ok (ts.map fDemo)
    getDimension := fun _ => some (Except.ok 1)
    maxSeqLength := fun _ => none
    fetchTime := fun _ => 5
    encodeTime := fun _ => 1 }

/-- Concrete settings for the witnesses. -/
def cfgDemo : Settings :=
  { default_model_name := "m1", max_batch_size := 32,
    max_sequence_length := 512, debug := false }

/-- The fresh service state: nothing loaded. -/
def stEmpty : ServiceState := { model := none, model_name := none }

/-- The state after loading the default model of `cfgDemo` through `beDemo`. -/
def stLoaded : ServiceState := { model := some ⟨1⟩, model_name := some "m1" }

/-- Five input texts, as in the splitting scenario of the spec. -/
def texts5 : List String := ["t1", "t2", "t3", "t4", "t5"]

/-- C1 witness: the batching theorem applied to 5 texts with batch size 2
against the concrete backend. -/
theorem generate_embeddings_batches_correct_witness :
    generate_embeddings beDemo cfgDemo stEmpty texts5 none true (some 2)
      = (Except.ok (texts5.map fDemo,
           eventsTime beDemo ((runChunks cfgDemo texts5 (some 2)).map Event.encode)),
         stLoaded, [Event.fetch "m1"] ++ (runChunks cfgDemo texts5 (some 2)).map Event.encode)
    ∧ (runChunks cfgDemo texts5 (some 2)).length
        = ceilDiv texts5.length (effBatchSize cfgDemo (some 2)).toNat
    ∧ (∀ c ∈ runChunks cfgDemo texts5 (some 2),
        c.length ≤ (effBatchSize cfgDemo (some 2)).toNat)
    ∧ (runChunks cfgDemo texts5 (some 2)).flatten = texts5
    ∧ (texts5.map fDemo).length = texts5.length :=
  generate_embeddings_batches_correct beDemo cfgDemo stEmpty texts5 none true (some 2)
    stLoaded [Event.fetch "m1"] ⟨1⟩ fDemo (by decide) (by decide) rfl rfl (fun ts => rfl)

/-! ### C2: oversized text -/

/-- Settings with a small sequence-length limit, for the C2 counterexample. -/
def cfgSmall : Settings :=
  { default_model_name := "m1", max_batch_size := 32,
    max_sequence_length := 2, debug := false }

/-- A shape-valid request containing one text longer than the limit of `cfgSmall`. -/
def reqOver : EmbeddingRequest := { texts := ["abc"] }

/-- C2 counterexample: a shape-valid request whose single text exceeds the
configured `max_sequence_length` is answered with status 400, not 422 — the
handler raises `HTTPException(status_code=400, ...)` (src/app/main.py:134). -/
theorem route_embeddings_oversize_status_is_400_not_422 :
    (route_embeddings beDemo cfgSmall stEmpty reqOver).1.1 = 400
    ∧ (route_embeddings beDemo cfgSmall stEmpty reqOver).1.1 ≠ 422 := by
  constructor
  · rfl
  · decide

/-- C2 (amended): for every POST /embeddings request that passes the shape
constraints (1 to 100 texts) but contains a text whose character count
exceeds the configured `max_sequence_length`, the service responds with
status 400 (not 422) and performs no model load and no inference: the
service state is unchanged and no external call happens. -/
theorem route_embeddings_oversize_400_no_inference
    (be : ModelBackend) (cfg : Settings) (s : ServiceState) (req : EmbeddingRequest)
    (hmin : 1 ≤ req.texts.length) (hmax : req.texts.length ≤ 100)
    (hover : req.texts.any (fun t => t.length > cfg.max_sequence_length) = true) :
    route_embeddings be cfg s req = ((400, none), s, []) := by
  unfold route_embeddings
  rw [if_neg (by omega), if_pos hover]

/-- C2 witness: the amended theorem at the concrete oversized request. -/
theorem route_embeddings_oversize_400_no_inference_witness :
    route_embeddings beDemo cfgSmall stEmpty reqOver = ((400, none), stEmpty, []) :=
  route_embeddings_oversize_400_no_inference beDemo cfgSmall stEmpty reqOver
    (by decide) (by decide) (by decide)

/-! ### C3: empty or too-many texts -/

/-- The empty request of the C3 witness. -/
def reqEmpty : EmbeddingRequest := { texts := [] }

/-- C3: for every request with texts of length 0 or greater than 100 the
service returns a 422 validation failure with no external call and no state
change; and `generate_embeddings` itself fails with the validation error on
an empty texts list before any model is loaded or invoked (state unchanged,
empty trace). -/
theorem validation_rejects_bad_shape
    (be : ModelBackend) (cfg : Settings) (s : ServiceState) (req : EmbeddingRequest)
    (hbad : req.texts.length = 0 ∨ 100 < req.texts.length) :
    route_embeddings be cfg s req = ((422, none), s, [])
    ∧ ∀ mname normalize batch_size,
        generate_embeddings be cfg s [] mname normalize batch_size
          = (Except.error "Texts list cannot be empty", s, []) := by
  constructor
  · unfold route_embeddings
    rw [if_pos (by omega)]
  · intro mname normalize batch_size
    rfl

/-- C3 witness: the empty-texts request is rejected with 422, and the
service-level call on the empty list fails with the validation error. -/
theorem validation_rejects_bad_shape_witness :
    route_embeddings beDemo cfgDemo stEmpty reqEmpty = ((422, none), stEmpty, [])
    ∧ generate_embeddings beDemo cfgDemo stEmpty [] none true none
        = (Except.error "Texts list cannot be empty", stEmpty, []) :=
  ⟨(validation_rejects_bad_shape beDemo cfgDemo stEmpty reqEmpty (by decide)).1,
   (validation_rejects_bad_shape beDemo cfgDemo stEmpty reqEmpty (by decide)).2 none true none⟩

/-! ### C4: idempotent load -/

/-- C4: when a model is resident under identifier `name` and the requested
identifier (or the configured default when absent) resolves to `name`,
`load_model` is a no-op: it succeeds, fetches nothing (empty trace, so no
re-initialisation), and leaves the resident model and identifier unchanged. -/
theorem load_model_idempotent
    (be : ModelBackend) (cfg : Settings) (s : ServiceState)
    (mname : Option String) (m : Model) (name : String)
    (hname : s.model_name = some name) (hm : s.model = some m)
    (hres : pyOrStr mname cfg.default_model_name = name) :
    load_model be cfg s mname = (Except.ok (), s, []) := by
  simp only [load_model, hres]
  rw [if_pos ⟨hname, by rw [hm]; rfl⟩]

/-- C4 witness: loading with no identifier when the resident model is the
configured default is a no-op. -/
theorem load_model_idempotent_witness :
    load_model beDemo cfgDemo stLoaded none = (Except.ok (), stLoaded, []) :=
  load_model_idempotent beDemo cfgDemo stLoaded none ⟨1⟩ "m1" rfl rfl rfl

/-! ### C5: unload -/

/-- C5: `unload_model` never fails (it is a total state transformation): after
it, no model is resident (`is_model_loaded` is false), a subsequent
GET /model/info returns 503, and when nothing was loaded it is a no-op. -/
theorem unload_model_spec (be : ModelBackend) (cfg : Settings) (s : ServiceState) :
    is_model_loaded (unload_model s) = false
    ∧ (route_model_info be cfg (unload_model s)).1.1 = 503
    ∧ (s.model = none → unload_model s = s) := by
  have hnone : (unload_model s).model = none := by
    unfold unload_model
    cases h : s.model with
    | none => simp [h]
    | some m => simp [h]
  refine ⟨?_, ?_, ?_⟩
  · simp [is_model_loaded, hnone]
  · simp [route_model_info, get_model_info, hnone, emptyInfoRec]
  · intro h
    unfold unload_model
    simp [h]

/-- C5 witness: unloading the fresh state. -/
theorem unload_model_spec_witness :
    is_model_loaded (unload_model stEmpty) = false
    ∧ (route_model_info beDemo cfgDemo (unload_model stEmpty)).1.1 = 503
    ∧ unload_model stEmpty = stEmpty :=
  ⟨(unload_model_spec beDemo cfgDemo stEmpty).1,
   (unload_model_spec beDemo cfgDemo stEmpty).2.1,
   (unload_model_spec beDemo cfgDemo stEmpty).2.2 rfl⟩

/-! ### C6: inference failure -/

/-- C6: when the underlying model inference fails during the batching loop,
`generate_embeddings` raises a runtime error wrapping the underlying cause,
the caller observes no partial results (the outcome is never `ok`), and a
shape- and length-valid POST /embeddings carrying the same call is answered
with status 500 and no body. -/
theorem generate_embeddings_inference_failure
    (be : ModelBackend) (cfg : Settings) (s : ServiceState)
    (texts : List String) (mname : Option String) (normalize : Bool)
    (batch_size : Option Int) (s' : ServiceState) (evL evE : List Event)
    (m : Model) (e : String)
    (hne : texts ≠ [])
    (hload : load_model be cfg s mname = (Except.ok (), s', evL))
    (hm : s'.model = some m)
    (hfail : batchLoop be m texts (effBatchSize cfg batch_size) normalize
      = (Except.error e, evE))
    (hmin : 1 ≤ texts.length) (hmax : texts.length ≤ 100)
    (hlen : texts.any (fun t => t.length > cfg.max_sequence_length) = false) :
    generate_embeddings be cfg s texts mname normalize batch_size
      = (Except.error ("Failed to generate embeddings: " ++ e), s', evL ++ evE)
    ∧ (∀ r, (generate_embeddings be cfg s texts mname normalize batch_size).1
          ≠ Except.ok r)
    ∧ route_embeddings be cfg s ⟨texts, mname, normalize, batch_size⟩
        = ((500, none), s', evL ++ evE) := by
  have hg : generate_embeddings be cfg s texts mname normalize batch_size
      = (Except.error ("Failed to generate embeddings: " ++ e), s', evL ++ evE) := by
    unfold generate_embeddings
    rw [if_neg hne, hload]
    dsimp only
    rw [hm]
    dsimp only
    rw [hfail]
  refine ⟨hg, ?_, ?_⟩
  · intro r
    rw [hg]
    simp
  · unfold route_embeddings
    dsimp only
    rw [if_neg (by omega), if_neg (by simp [hlen]), hg]

/-- A backend whose inference always fails (loads succeed). -/
def beFailEnc : ModelBackend :=
  { loadResult := fun _ => Except.ok ⟨1⟩
    encode := fun _ _ _ => Except.error "boom"
    getDimension := fun _ => some (Except.ok 1)
    maxSeqLength := fun _ => none
    fetchTime := fun _ => 5
    encodeTime := fun _ => 1 }

/-- C6 witness: the failing-inference theorem at one concrete text. -/
theorem generate_embeddings_inference_failure_witness :
    generate_embeddings beFailEnc cfgDemo stEmpty ["t1"] none true none
      = (Except.error ("Failed to generate embeddings: " ++ "boom"), stLoaded,
         [Event.fetch "m1"] ++ [Event.encode ["t1"]])
    ∧ (generate_embeddings beFailEnc cfgDemo stEmpty ["t1"] none true none).1
        ≠ Except.ok ([], 0)
    ∧ route_embeddings beFailEnc cfgDemo stEmpty ⟨["t1"], none, true, none⟩
        = ((500, none), stLoaded, [Event.fetch "m1"] ++ [Event.encode ["t1"]]) :=
  ⟨(generate_embeddings_inference_failure beFailEnc cfgDemo stEmpty ["t1"] none true none
      stLoaded [Event.fetch "m1"] [Event.encode ["t1"]] ⟨1⟩ "boom"
      (by decide) rfl rfl rfl (by decide) (by decide) (by decide)).1,
   (generate_embeddings_inference_failure beFailEnc cfgDemo stEmpty ["t1"] none true none
      stLoaded [Event.fetch "m1"] [Event.encode ["t1"]] ⟨1⟩ "boom"
      (by decide) rfl rfl rfl (by decide) (by decide) (by decide)).2.1 ([], 0),
   (generate_embeddings_inference_failure beFailEnc cfgDemo stEmpty ["t1"] none true none
      stLoaded [Event.fetch "m1"] [Event.encode ["t1"]] ⟨1⟩ "boom"
      (by decide) rfl rfl rfl (by decide) (by decide) (by decide)).2.2⟩

/-! ### C7: load failure -/

/-- C7: when fetch/initialisation of the requested identifier fails and the
no-op case does not apply, `load_model` raises a load error whose message
wraps the underlying cause, and POST /model/load is answered with 500. -/
theorem load_model_failure_wraps
    (be : ModelBackend) (cfg : Settings) (s : ServiceState) (name e : String)
    (hnoop : ¬(s.model_name = some (pyOrStr (some name) cfg.default_model_name)
                 ∧ s.model.isSome = true))
    (hfail : be.loadResult (pyOrStr (some name) cfg.default_model_name)
      = Except.error e) :
    load_model be cfg s (some name)
      = (Except.error ("Failed to load model "
            ++ pyOrStr (some name) cfg.default_model_name ++ ": " ++ e), s,
         [Event.fetch (pyOrStr (some name) cfg.default_model_name)])
    ∧ (route_model_load be cfg s name).1.1 = 500 := by
  have hl : load_model be cfg s (some name)
      = (Except.error ("Failed to load model "
            ++ pyOrStr (some name) cfg.default_model_name ++ ": " ++ e), s,
         [Event.fetch (pyOrStr (some name) cfg.default_model_name)]) := by
    simp only [load_model]
    rw [if_neg hnoop, hfail]
  refine ⟨hl, ?_⟩
  unfold route_model_load
  rw [hl]

/-- A backend whose loads always fail. -/
def beFailLoad : ModelBackend :=
  { loadResult := fun _ => Except.error "no such model"
    encode := fun _ ts _ => Except.ok (ts.map fDemo)
    getDimension := fun _ => some (Except.ok 1)
    maxSeqLength := fun _ => none
    fetchTime := fun _ => 5
    encodeTime := fun _ => 1 }

/-- C7 witness: a failing load of identifier `bad` from the fresh state. -/
theorem load_model_failure_wraps_witness :
    load_model beFailLoad cfgDemo stEmpty (some "bad")
      = (Except.error ("Failed to load model "
            ++ pyOrStr (some "bad") cfgDemo.default_model_name ++ ": " ++ "no such model"),
         stEmpty, [Event.fetch (pyOrStr (some "bad") cfgDemo.default_model_name)])
    ∧ (route_model_load beFailLoad cfgDemo stEmpty "bad").1.1 = 500 :=
  load_model_failure_wraps beFailLoad cfgDemo stEmpty "bad" "no such model"
    (by decide) rfl

/-! ### C8: get_model_info is total and degrades -/

/-- C8: `get_model_info` is a total function (it returns a record, never an
error): when nothing is loaded it returns the all-empty record with
`is_loaded = false`, and when a model is resident but dimensionality
resolution fails it degrades to a record with `is_loaded = false` and
unknown (`none`) dimensions, keeping the resident identifier, rather than
raising. -/
theorem get_model_info_total_degrades
    (be : ModelBackend) (cfg : Settings) (s : ServiceState) :
    (s.model = none → get_model_info be cfg s = (emptyInfoRec, []))
    ∧ ∀ m e, s.model = some m → (resolveDims be m).1 = Except.error e →
        (get_model_info be cfg s).1.is_loaded = false
        ∧ (get_model_info be cfg s).1.embedding_dimensions = none
        ∧ (get_model_info be cfg s).1.model_name = s.model_name := by
  constructor
  · intro h
    unfold get_model_info
    rw [h]
  · intro m e hm hres
    unfold get_model_info
    rw [hm]
    dsimp only
    rcases hrd : resolveDims be m with ⟨r, evs⟩
    rw [hrd] at hres
    dsimp only at hres
    subst hres
    exact ⟨rfl, rfl, rfl⟩

/-- A backend whose dimensionality accessor exists but raises. -/
def beFailDim : ModelBackend :=
  { loadResult := fun _ => Except.ok ⟨1⟩
    encode := fun _ ts _ => Except.ok (ts.map fDemo)
    getDimension := fun _ => some (Except.error "boom")
    maxSeqLength := fun _ => none
    fetchTime := fun _ => 5
    encodeTime := fun _ => 1 }

/-- C8 witness: the degradation branch at a resident model whose
dimensionality accessor raises, plus the not-loaded branch at the fresh
state. -/
theorem get_model_info_total_degrades_witness :
    (get_model_info beFailDim cfgDemo stLoaded).1.is_loaded = false
    ∧ (get_model_info beFailDim cfgDemo stLoaded).1.embedding_dimensions = none
    ∧ (get_model_info beFailDim cfgDemo stLoaded).1.model_name = stLoaded.model_name
    ∧ get_model_info beFailDim cfgDemo stEmpty = (emptyInfoRec, []) :=
  ⟨((get_model_info_total_degrades beFailDim cfgDemo stLoaded).2 ⟨1⟩ "boom" rfl rfl).1,
   ((get_model_info_total_degrades beFailDim cfgDemo stLoaded).2 ⟨1⟩ "boom" rfl rfl).2.1,
   ((get_model_info_total_degrades beFailDim cfgDemo stLoaded).2 ⟨1⟩ "boom" rfl rfl).2.2,
   (get_model_info_total_degrades beFailDim cfgDemo stEmpty).1 rfl⟩

/-! ### C9: what the reported processing time measures -/

/-- C9 counterexample: a call from the fresh state that must load the model
(fetch lasts 5 time units) and run one inference call (1 time unit) reports a
processing time of 1, while the work of steps 2 through 4 performed by the
call (the full trace: the fetch plus the inference) lasts 6 — so the
reported elapsed time does not bracket the model-loading step, contradicting
the claim that it covers steps 2 through 4. -/
theorem processing_time_excludes_load_counterexample :
    generate_embeddings beDemo cfgDemo stEmpty ["t1"] none true none
      = (Except.ok ([fDemo "t1"], 1), stLoaded,
         [Event.fetch "m1", Event.encode ["t1"]])
    ∧ eventsTime beDemo [Event.fetch "m1", Event.encode ["t1"]] = 6
    ∧ (1 : Nat) ≠ 6 := by
  refine ⟨rfl, rfl, by decide⟩

/-- C9 (amended): the elapsed time returned by a successful
`generate_embeddings` call measures only the batched inference loop
(step 4): the timer starts after `load_model` returns and after batch-size
resolution, so the reported value is the total duration of the inference
events alone, and the load events of the call (the trace prefix `evL`) are
not included. -/
theorem processing_time_covers_inference_only
    (be : ModelBackend) (cfg : Settings) (s : ServiceState)
    (texts : List String) (mname : Option String) (normalize : Bool)
    (batch_size : Option Int) (s' : ServiceState) (evL evE : List Event)
    (m : Model) (vecs : List Vec)
    (hne : texts ≠ [])
    (hload : load_model be cfg s mname = (Except.ok (), s', evL))
    (hm : s'.model = some m)
    (hok : batchLoop be m texts (effBatchSize cfg batch_size) normalize
      = (Except.ok vecs, evE)) :
    generate_embeddings be cfg s texts mname normalize batch_size
      = (Except.ok (vecs, eventsTime be evE), s', evL ++ evE)
    ∧ (∀ ev ∈ evE, ∃ ts, ev = Event.encode ts) := by
  constructor
  · unfold generate_embeddings
    rw [if_neg hne, hload]
    dsimp only
    rw [hm]
    dsimp only
    rw [hok]
  · intro ev hev
    unfold batchLoop at hok
    cases hr : pyRange0 texts.length (effBatchSize cfg batch_size) with
    | none =>
      rw [hr] at hok
      simp at hok
    | some idxs =>
      rw [hr] at hok
      dsimp only at hok
      have h2 : (encodeChunks be m normalize
          (idxs.map (fun i => sliceChunk texts i (effBatchSize cfg batch_size).toNat))).2
          = evE := by rw [hok]
      exact encodeChunks_events_encode be m normalize _ ev (h2 ▸ hev)

/-- C9 witness: the amended theorem at one concrete text from the fresh
state. -/
theorem processing_time_covers_inference_only_witness :
    generate_embeddings beDemo cfgDemo stEmpty ["t1"] none true none
      = (Except.ok ([fDemo "t1"], eventsTime beDemo [Event.encode ["t1"]]), stLoaded,
         [Event.fetch "m1"] ++ [Event.encode ["t1"]]) :=
  (processing_time_covers_inference_only beDemo cfgDemo stEmpty ["t1"] none true none
    stLoaded [Event.fetch "m1"] [Event.encode ["t1"]] ⟨1⟩ [fDemo "t1"]
    (by decide) rfl rfl rfl).1

/-! ### C10: negative and zero batch sizes -/

/-- C10: for a non-empty texts list and a caller-supplied negative batch
size, `generate_embeddings` raises no error and performs no inference (the
batching loop runs zero iterations, the trace gains only the load events),
returning an empty embeddings list whose length differs from the input
length; a caller-supplied batch size of 0 is treated as absent and falls
back to the configured `max_batch_size`. -/
theorem generate_embeddings_negative_batch
    (be : ModelBackend) (cfg : Settings) (s : ServiceState)
    (texts : List String) (mname : Option String) (normalize : Bool)
    (b : Int) (s' : ServiceState) (evL : List Event) (m : Model)
    (hne : texts ≠ [])
    (hload : load_model be cfg s mname = (Except.ok (), s', evL))
    (hm : s'.model = some m)
    (hneg : b < 0) :
    generate_embeddings be cfg s texts mname normalize (some b)
      = (Except.ok ([], 0), s', evL)
    ∧ (0 : Nat) ≠ texts.length
    ∧ (∀ ev ∈ evL, ∃ nm, ev = Event.fetch nm)
    ∧ effBatchSize cfg (some 0) = cfg.max_batch_size := by
  have heff : effBatchSize cfg (some b) = b := by
    unfold effBatchSize pyOrInt
    dsimp only
    rw [if_neg (by omega)]
  have hrange : pyRange0 texts.length b = some [] := by
    unfold pyRange0
    rw [if_neg (by omega), if_pos hneg]
  have hbatch : batchLoop be m texts (effBatchSize cfg (some b)) normalize
      = (Except.ok [], []) := by
    unfold batchLoop
    rw [heff, hrange]
    rfl
  refine ⟨?_, ?_, ?_, rfl⟩
  · unfold generate_embeddings
    rw [if_neg hne, hload]
    dsimp only
    rw [hm]
    dsimp only
    rw [hbatch]
    simp [eventsTime]
  · exact (Nat.ne_of_lt (List.length_pos.mpr hne))
  · have h := load_model_events_fetch be cfg s mname
    rw [hload] at h
    exact h

/-- C10 witness: two texts with batch size -1 from the fresh state. -/
theorem generate_embeddings_negative_batch_witness :
    generate_embeddings beDemo cfgDemo stEmpty ["t1", "t2"] none true (some (-1))
      = (Except.ok ([], 0), stLoaded, [Event.fetch "m1"])
    ∧ (0 : Nat) ≠ (["t1", "t2"] : List String).length
    ∧ effBatchSize cfgDemo (some 0) = cfgDemo.max_batch_size :=
  ⟨(generate_embeddings_negative_batch beDemo cfgDemo stEmpty ["t1", "t2"] none true
      (-1) stLoaded [Event.fetch "m1"] ⟨1⟩ (by decide) rfl rfl (by decide)).1,
   (generate_embeddings_negative_batch beDemo cfgDemo stEmpty ["t1", "t2"] none true
      (-1) stLoaded [Event.fetch "m1"] ⟨1⟩ (by decide) rfl rfl (by decide)).2.1,
   (generate_embeddings_negative_batch beDemo cfgDemo stEmpty ["t1", "t2"] none true
      (-1) stLoaded [Event.fetch "m1"] ⟨1⟩ (by decide) rfl rfl (by decide)).2.2.2⟩

end EmbGen
